import Mathlib

/-!
Verification of the Digital-Art-Gallery Express server and browser auth layer.

The definitions below are a shallow embedding of the JavaScript source:
`src/server.js` / `src/server_supabase_backup.js` (route handlers and the
credential gate) and `src/auth.js` (browser-side auth-state subscribers).
External services (the Supabase SDK, URL parsing, token verification) are
modelled as explicit parameters or oracle flags, so each handler is a pure
function from request, environment and backend state to a response and a
new backend state.
-/

namespace ArtGallery

/-! ### JavaScript string primitives -/

/-- Case-folding used by the case-insensitive regex test: uppercase every
character of the string. -/
def upperChars (s : String) : List Char := s.data.map Char.toUpper

/-- Substring containment over character lists (the semantics of testing a
string against a regex that is a literal alternation). -/
def containsSub (hay pat : List Char) : Bool :=
  match hay with
  | [] => pat.isEmpty
  | _ :: t => pat.isPrefixOf hay || containsSub t pat

/-- Embedding of the test
`/YOUR_SUPABASE_URL|YOUR_SUPABASE_SERVICE_ROLE_KEY/i.test(s)` from
`isValidSupabase` in `src/server.js` lines 44-45: case-insensitive search for
either placeholder literal. -/
def placeholderTest (s : String) : Bool :=
  containsSub (upperChars s) "YOUR_SUPABASE_URL".data ||
  containsSub (upperChars s) "YOUR_SUPABASE_SERVICE_ROLE_KEY".data

/-- Embedding of `String.prototype.trim`: drop whitespace from both ends. -/
def jsTrim (s : String) : String :=
  String.mk (((s.data.dropWhile Char.isWhitespace).reverse.dropWhile
    Char.isWhitespace).reverse)

/-! ### URL parsing model

`new URL(x)` is a platform primitive, not repository code, so it is kept
abstract: handlers take a parameter `parseURL : String → Option URLParts`
where `none` models the constructor throwing. -/

/-- The parts of a parsed WHATWG URL that the repository reads. -/
structure URLParts where
  protocol : String
  pathname : String
deriving Repr, DecidableEq

/-! ### Credential validation gate (src/server.js lines 41-50) -/

/-- Embedding of `isValidSupabase(url, key)` from `src/server.js` lines 41-50.
`!url || !key` is string falsiness (empty string); `new URL(url)` throwing is
`parseURL url = none` and the catch returns false; otherwise the protocol must
be http: or https: and `url + key` must be free of placeholder text. -/
def isValidSupabase (parseURL : String → Option URLParts)
    (url key : String) : Bool :=
  if url = "" ∨ key = "" then false
  else
    match parseURL url with
    | none => false
    | some u =>
        ((u.protocol == "http:") || (u.protocol == "https:")) &&
          !(placeholderTest (url ++ key))

/-! ### Public config endpoint (src/server.js lines 29-36) -/

/-- The process environment variables the server reads; `none` models an
unset variable. -/
structure Env where
  SUPABASE_URL : Option String
  SUPABASE_ANON_KEY : Option String
  SUPABASE_SERVICE_ROLE_KEY : Option String
  ADMIN_API_KEY : Option String
deriving Repr, DecidableEq

/-- The JSON body returned by `GET /api/public-config`. -/
structure PublicConfig where
  supabaseUrl : String
  supabaseAnonKey : String
deriving Repr, DecidableEq

/-- Embedding of the `GET /api/public-config` handler, `src/server.js`
lines 29-36: each field is `(process.env.X || "").trim()`. -/
def publicConfig (env : Env) : PublicConfig :=
  { supabaseUrl := jsTrim (env.SUPABASE_URL.getD "")
    supabaseAnonKey := jsTrim (env.SUPABASE_ANON_KEY.getD "") }

/-! ### GET /api/artworks (src/server.js lines 67-80) -/

/-- Response of the artwork-list handler: `ok` is `res.json(rows)` (status
200), `dbError` the 500 branch, `unreachable` the catch branch (503). -/
inductive GetResp (α : Type) where
  | ok (rows : List α)
  | dbError (msg : String)
  | unreachable
deriving Repr, DecidableEq

/-- HTTP status of each artwork-list response. -/
def GetResp.status : GetResp α → Nat
  | .ok _ => 200
  | .dbError _ => 500
  | .unreachable => 503

/-- Embedding of the `GET /api/artworks` handler, `src/server.js` lines
67-80. `configured` is whether the global `supabase` client is non-null;
`netErr` models the awaited SDK call throwing (caught as 503); `backend` is
the SDK result: an upstream error message, or data that may be null
(`data || []`). -/
def getArtworks (configured netErr : Bool)
    (backend : Except String (Option (List α))) : GetResp α :=
  if !configured then .ok []
  else if netErr then .unreachable
  else
    match backend with
    | .error m => .dbError ("Cloud database error: " ++ m)
    | .ok d => .ok (d.getD [])

/-! ### POST /api/artworks (src/server.js lines 82-98) -/

/-- JavaScript values as they arrive from a parsed JSON body; `undef` is a
missing key after destructuring `req.body || {}`. -/
inductive JSVal where
  | undef
  | null
  | str (s : String)
  | num (n : Int)
  | jbool (b : Bool)
deriving Repr, DecidableEq

/-- JavaScript truthiness of a value: `undefined`, `null`, the empty string,
the number 0 and `false` are falsy. -/
def JSVal.truthy : JSVal → Bool
  | .undef => false
  | .null => false
  | .str s => !(s == "")
  | .num n => !(n == 0)
  | .jbool b => b

/-- The destructured fields of the creation request body. -/
structure PostBody where
  title : JSVal
  description : JSVal
  price : JSVal
  image_url : JSVal
deriving Repr, DecidableEq

/-- An artworks row as inserted and echoed back by the backend: the four
body fields plus a backend-generated id. -/
structure InsertedRow where
  id : Nat
  title : JSVal
  description : JSVal
  price : JSVal
  image_url : JSVal
deriving Repr, DecidableEq

/-- The artworks table state seen by the creation handler, with a counter
supplying fresh backend-generated ids. -/
structure PostState where
  artworks : List InsertedRow
  nextId : Nat
deriving Repr, DecidableEq

/-- Response of the creation handler. -/
inductive PostResp where
  | notConfigured
  | badRequest
  | unreachable
  | insertFailed (msg : String)
  | ok (row : InsertedRow)
deriving Repr, DecidableEq

/-- HTTP status of each creation response. -/
def PostResp.status : PostResp → Nat
  | .notConfigured => 500
  | .badRequest => 400
  | .unreachable => 503
  | .insertFailed _ => 500
  | .ok _ => 200

/-- Embedding of the `POST /api/artworks` handler, `src/server.js` lines
82-98. The guard is `if (!title || !price) return 400` — JavaScript
truthiness. `netErr` models the awaited insert throwing (caught as 503);
`insertErr` models the SDK returning an error object (500). On success the
backend appends the row and the handler responds with `data?.[0]`. -/
def postArtworks (configured netErr insertErr : Bool) (body : PostBody)
    (s : PostState) : PostResp × PostState :=
  if !configured then (.notConfigured, s)
  else if !body.title.truthy || !body.price.truthy then (.badRequest, s)
  else if netErr then (.unreachable, s)
  else if insertErr then (.insertFailed "Cloud insert failed", s)
  else
    let row : InsertedRow :=
      { id := s.nextId, title := body.title, description := body.description
        price := body.price, image_url := body.image_url }
    (.ok row, { artworks := s.artworks ++ [row], nextId := s.nextId + 1 })

/-! ### Storage-path extraction (src/server.js lines 115-121)

The handler runs `url.pathname.match(/\/object\/public\/artworks\/(.+)$/)`.
The regex is unanchored at the left, `.` does not match line terminators and
`$` (no m flag) matches only at the end of the input, so a match is the
leftmost occurrence of the literal `/object/public/artworks/` whose remaining
suffix is non-empty and free of line terminators; the capture is that
suffix. -/

/-- The literal part of the storage-path regex. -/
def storageLitChars : List Char := "/object/public/artworks/".data

/-- Line terminators that `.` does not match in a JavaScript regex. -/
def isLineTerm (c : Char) : Bool :=
  c == Char.ofNat 10 || c == Char.ofNat 13 ||
  c == Char.ofNat 0x2028 || c == Char.ofNat 0x2029

/-- Whether `(.+)$` matches a character list: non-empty and without line
terminators. -/
def dotPlusToEnd (cs : List Char) : Bool :=
  !cs.isEmpty && cs.all (fun c => !(isLineTerm c))

/-- Leftmost-match scan for the storage-path regex over a character list. -/
def matchStorageChars : List Char → Option (List Char)
  | [] => none
  | c :: rest =>
      let tail := (c :: rest).drop storageLitChars.length
      if storageLitChars.isPrefixOf (c :: rest) && dotPlusToEnd tail
      then some tail
      else matchStorageChars rest

/-- Embedding of the pathname match: the captured object path, or `none`
when the pattern does not match. -/
def extractStoragePath (pathname : String) : Option String :=
  (matchStorageChars pathname.data).map String.mk

/-! ### DELETE /api/artworks/:id (src/server.js lines 101-125) -/

/-- An artworks row as read by the delete handler
(`select("id,image_url")`); `image_url` is a nullable text column. -/
structure StoredArtwork where
  id : String
  image_url : Option String
deriving Repr, DecidableEq

/-- Backend state seen by the delete handler: the artworks table and the
object paths present in the `artworks` storage bucket. -/
structure DeleteState where
  artworks : List StoredArtwork
  storage : List String
deriving Repr, DecidableEq

/-- Response of the delete handler. -/
inductive DeleteResp where
  | notConfigured
  | forbidden
  | readFailed
  | notFound
  | deleteFailed
  | ok
deriving Repr, DecidableEq

/-- HTTP status of each delete response; `ok` is `200 json ok true`. -/
def DeleteResp.status : DeleteResp → Nat
  | .notConfigured => 500
  | .forbidden => 403
  | .readFailed => 500
  | .notFound => 404
  | .deleteFailed => 500
  | .ok => 200

/-- Embedding of the `DELETE /api/artworks/:id` handler, `src/server.js`
lines 101-125. `adminKeyEnv` is `process.env.ADMIN_API_KEY` (`none` if
unset); `adminKeyHeader` is the `x-admin-key` request header (`none` if
absent). The guard is `if (!ADMIN_API_KEY || adminKeyHeader !== ADMIN_API_KEY)
return 403` after defaulting the env var to the empty string. `selErr` and
`delErr` model the two SDK calls returning error objects. The storage step
parses `row.image_url || ""` as a URL inside a try block whose catch swallows
everything; on a pattern match the object is removed from the bucket,
otherwise storage is untouched; the row deletion runs regardless. -/
def deleteArtwork (parseURL : String → Option URLParts)
    (configured selErr delErr : Bool)
    (adminKeyEnv adminKeyHeader : Option String)
    (id : String) (s : DeleteState) : DeleteResp × DeleteState :=
  if !configured then (.notConfigured, s)
  else
    let adminApiKey := adminKeyEnv.getD ""
    if adminApiKey = "" ∨ adminKeyHeader ≠ some adminApiKey then
      (.forbidden, s)
    else if selErr then (.readFailed, s)
    else
      match s.artworks.find? (fun r => r.id == id) with
      | none => (.notFound, s)
      | some row =>
          let s1 :=
            match parseURL (row.image_url.getD "") with
            | none => s
            | some u =>
                match extractStoragePath u.pathname with
                | none => s
                | some p =>
                    { s with storage := s.storage.filter (fun q => !(q == p)) }
          if delErr then (.deleteFailed, s1)
          else (.ok, { s1 with artworks := s1.artworks.filter (fun r => !(r.id == id)) })

/-! ### POST /api/artworks/:id/like (src/server_supabase_backup.js lines 212-256) -/

/-- A row of the `artwork_likes` table; `id` is backend-generated. -/
structure LikeRow where
  id : Nat
  user_id : String
  artwork_id : String
deriving Repr, DecidableEq

/-- An artworks row as touched by the like counter RPCs. -/
structure GalleryArtwork where
  id : String
  likes : Int
deriving Repr, DecidableEq

/-- Backend state seen by the like handler, with a counter supplying fresh
backend-generated like-row ids. -/
structure LikeState where
  artwork_likes : List LikeRow
  artworks : List GalleryArtwork
  nextLikeId : Nat
deriving Repr, DecidableEq

/-- Embedding of the stored procedure `increment_likes(artwork_id)` from the
schema migration: `update artworks set likes = likes + 1 where id = artwork_id`. -/
def rpcIncrementLikes (l : List GalleryArtwork) (aid : String) : List GalleryArtwork :=
  l.map (fun a => if a.id == aid then { a with likes := a.likes + 1 } else a)

/-- Embedding of the stored procedure `decrement_likes(artwork_id)`:
`update artworks set likes = likes - 1 where id = artwork_id`. -/
def rpcDecrementLikes (l : List GalleryArtwork) (aid : String) : List GalleryArtwork :=
  l.map (fun a => if a.id == aid then { a with likes := a.likes - 1 } else a)

/-- Response of the like handler. -/
inductive LikeResp where
  | notConfigured
  | unauthorized
  | invalidToken
  | liked (b : Bool)
  | toggleFailed
deriving Repr, DecidableEq

/-- HTTP status of each like response; `liked b` is `200 json liked b`. -/
def LikeResp.status : LikeResp → Nat
  | .notConfigured => 500
  | .unauthorized => 401
  | .invalidToken => 401
  | .liked _ => 200
  | .toggleFailed => 500

/-- The literal `Bearer ` checked against the Authorization header. -/
def bearerChars : List Char := "Bearer ".data

/-- Embedding of the `POST /api/artworks/:id/like` handler,
`src/server_supabase_backup.js` lines 212-256. The Authorization header must
exist and start with `Bearer `; the token is `substring(7)`;
`supabase.auth.getUser` is the abstract `getUser` parameter (`none` models a
missing or invalid user). A `.single()` lookup of the (user, artwork) like
row decides the branch: delete the row by its id and call `decrement_likes`,
or insert a fresh row and call `increment_likes`. -/
def likeArtwork (configured : Bool) (getUser : String → Option String)
    (authHeader : Option String) (artworkId : String)
    (s : LikeState) : LikeResp × LikeState :=
  if !configured then (.notConfigured, s)
  else
    match authHeader with
    | none => (.unauthorized, s)
    | some h =>
        if !(bearerChars.isPrefixOf h.data) then (.unauthorized, s)
        else
          let token := String.mk (h.data.drop 7)
          match getUser token with
          | none => (.invalidToken, s)
          | some uid =>
              match s.artwork_likes.find?
                  (fun r => r.user_id == uid && r.artwork_id == artworkId) with
              | some existing =>
                  let remaining := s.artwork_likes.filter (fun r => !(r.id == existing.id))
                  let s1 := { s with artwork_likes := remaining }
                  let s2 := { s1 with artworks := rpcDecrementLikes s1.artworks artworkId }
                  (.liked false, s2)
              | none =>
                  let inserted := s.artwork_likes ++ [⟨s.nextLikeId, uid, artworkId⟩]
                  let s1 := { s with artwork_likes := inserted, nextLikeId := s.nextLikeId + 1 }
                  let s2 := { s1 with artworks := rpcIncrementLikes s1.artworks artworkId }
                  (.liked true, s2)

/-! ### Browser auth-state subscribers (src/auth.js) -/

/-- Browser-side auth module state: the created client flag, the
`authStateListeners` array (callbacks kept abstract as values of `κ`) and the
`currentUser` entry of local storage. -/
structure AuthState (κ : Type) where
  sbCreated : Bool
  listeners : List κ
  currentUser : Option String
deriving Repr

/-- Embedding of `onAuthStateChange(callback)` from `src/auth.js` lines
62-69: push the callback onto `authStateListeners`, and if a cached user is
in local storage invoke the new callback immediately. Returns the new state
and the callbacks invoked during registration. -/
def onAuthStateChange (s : AuthState κ) (callback : κ) : AuthState κ × List κ :=
  ({ s with listeners := s.listeners ++ [callback] },
   match s.currentUser with
   | some _ => [callback]
   | none => [])

/-- Embedding of the auth-event listener installed by `initSupabase`,
`src/auth.js` lines 20-37: store or clear the cached user, then
`authStateListeners.forEach(callback => callback(user, session))`. Returns
the new state and the sequence of callbacks invoked, in invocation order. -/
def handleAuthEvent (s : AuthState κ) (user : Option String) : AuthState κ × List κ :=
  ({ s with currentUser := user }, s.listeners)

/-- A sequence of registrations, folded through `onAuthStateChange`. -/
def registerAll (s : AuthState κ) (cs : List κ) : AuthState κ :=
  cs.foldl (fun st c => (onAuthStateChange st c).1) s

/-! ## Theorems -/

/-- C1: `isValidSupabase` returns true for a (service URL, service key) pair
if and only if both strings are non-empty, the URL parses with protocol
`http:` or `https:`, and the concatenation of the two strings does not match
the placeholder pattern; otherwise (including when URL parsing throws) it
returns false. -/
theorem isValidSupabase_contract (parseURL : String → Option URLParts)
    (url key : String) :
    isValidSupabase parseURL url key = true ↔
      url ≠ "" ∧ key ≠ "" ∧
      ∃ u, parseURL url = some u ∧
        (u.protocol = "http:" ∨ u.protocol = "https:") ∧
        placeholderTest (url ++ key) = false := by
  by_cases hempty : url = "" ∨ key = ""
  · rcases hempty with h | h <;> simp [isValidSupabase, h]
  · push_neg at hempty
    obtain ⟨h1, h2⟩ := hempty
    cases hp : parseURL url with
    | none => simp [isValidSupabase, h1, h2, hp]
    | some u =>
        simp [isValidSupabase, h1, h2, hp, Bool.and_eq_true, Bool.or_eq_true,
          Bool.not_eq_true']

/-- C6: while the backend client is unconfigured, `GET /api/artworks`
responds with status 200 and an empty JSON array, whatever the (never
consulted) backend would have done. -/
theorem getArtworks_unconfigured_empty (α : Type) (netErr : Bool)
    (backend : Except String (Option (List α))) :
    getArtworks false netErr backend = GetResp.ok ([] : List α) ∧
    (getArtworks false netErr backend).status = 200 :=
  ⟨rfl, rfl⟩

/-- C10: the `GET /api/public-config` response depends only on the
`SUPABASE_URL` and `SUPABASE_ANON_KEY` environment variables: two
environments agreeing on those two variables produce identical responses,
whatever their `SUPABASE_SERVICE_ROLE_KEY` and `ADMIN_API_KEY`. -/
theorem publicConfig_noninterference (e1 e2 : Env)
    (hu : e1.SUPABASE_URL = e2.SUPABASE_URL)
    (ha : e1.SUPABASE_ANON_KEY = e2.SUPABASE_ANON_KEY) :
    publicConfig e1 = publicConfig e2 := by
  simp [publicConfig, hu, ha]

/-- Witness for C10: two concrete environments differing only in the
privileged credentials yield the same public config. -/
theorem publicConfig_noninterference_witness :
    publicConfig ⟨some "https://db.example.co", some "anon-key",
      some "service-secret", some "admin-secret"⟩ =
    publicConfig ⟨some "https://db.example.co", some "anon-key",
      none, some "different"⟩ :=
  publicConfig_noninterference _ _ rfl rfl

/-- Registering a callback appends it to the listener list. -/
theorem registerAll_listeners (cs : List κ) (s : AuthState κ) :
    (registerAll s cs).listeners = s.listeners ++ cs := by
  induction cs generalizing s with
  | nil => simp [registerAll]
  | cons c t ih =>
      show (registerAll ((onAuthStateChange s c).1) t).listeners = _
      rw [ih]
      simp [onAuthStateChange]

/-- C7: any sequence of `onAuthStateChange` registrations only appends to
the subscriber list (earlier entries keep their places), and a subsequent
auth-state event invokes exactly the registered callbacks, once each, in
registration order. -/
theorem authListeners_append_and_fire (κ : Type) (s : AuthState κ)
    (cs : List κ) :
    (registerAll s cs).listeners = s.listeners ++ cs ∧
    ∀ user, (handleAuthEvent (registerAll s cs) user).2 = s.listeners ++ cs :=
  ⟨registerAll_listeners cs s, fun _ => registerAll_listeners cs s⟩

/-- C3 counterexample: on an unconfigured backend a DELETE request with a
wrong `x-admin-key` header is answered with status 500, not 403, so the
claim as stated (over every DELETE request) is false. -/
theorem deleteArtwork_unconfigured_counterexample :
    (deleteArtwork (fun _ => none) false false false (some "secret")
      (some "wrong") "1" ⟨[], []⟩).1.status = 500 ∧
    ¬ (deleteArtwork (fun _ => none) false false false (some "secret")
      (some "wrong") "1" ⟨[], []⟩).1.status = 403 := by
  decide

/-- C3 (amended): on a configured backend, every DELETE request whose
`x-admin-key` header differs from the server-side admin key is answered 403
and leaves the backend state (rows and storage) unchanged; an unconfigured
backend answers 500 and also leaves the state unchanged. -/
theorem deleteArtwork_wrong_key_forbidden (parseURL : String → Option URLParts)
    (selErr delErr : Bool) (adminKeyEnv adminKeyHeader : Option String)
    (id : String) (s : DeleteState)
    (h : adminKeyHeader ≠ some (adminKeyEnv.getD "")) :
    (deleteArtwork parseURL true selErr delErr adminKeyEnv adminKeyHeader id s).1.status = 403 ∧
    (deleteArtwork parseURL true selErr delErr adminKeyEnv adminKeyHeader id s).2 = s ∧
    ∀ configured : Bool,
      (deleteArtwork parseURL configured selErr delErr adminKeyEnv adminKeyHeader id s).2 = s := by
  have hcond : adminKeyEnv.getD "" = "" ∨ adminKeyHeader ≠ some (adminKeyEnv.getD "") :=
    Or.inr h
  refine ⟨?_, ?_, ?_⟩
  · simp [deleteArtwork, hcond, DeleteResp.status]
  · simp [deleteArtwork, hcond]
  · intro configured
    cases configured
    · simp [deleteArtwork]
    · simp [deleteArtwork, hcond]

/-- Witness for C3 (amended): a concrete wrong-header request is rejected
with 403 and the state survives untouched. -/
theorem deleteArtwork_wrong_key_forbidden_witness :
    (deleteArtwork (fun _ => none) true false false (some "secret")
      (some "wrong") "1" ⟨[⟨"1", none⟩], ["keep.png"]⟩).1.status = 403 ∧
    (deleteArtwork (fun _ => none) true false false (some "secret")
      (some "wrong") "1" ⟨[⟨"1", none⟩], ["keep.png"]⟩).2 =
        ⟨[⟨"1", none⟩], ["keep.png"]⟩ ∧
    ∀ configured : Bool,
      (deleteArtwork (fun _ => none) configured false false (some "secret")
        (some "wrong") "1" ⟨[⟨"1", none⟩], ["keep.png"]⟩).2 =
          ⟨[⟨"1", none⟩], ["keep.png"]⟩ :=
  deleteArtwork_wrong_key_forbidden (fun _ => none) false false (some "secret")
    (some "wrong") "1" ⟨[⟨"1", none⟩], ["keep.png"]⟩ (by decide)

/-- C9: with `ADMIN_API_KEY` unset or empty, every DELETE request on a
configured backend is rejected 403 regardless of the `x-admin-key` header
(including an empty-string header), leaving the state unchanged: the admin
gate fails closed. -/
theorem deleteArtwork_fails_closed (parseURL : String → Option URLParts)
    (selErr delErr : Bool) (adminKeyEnv adminKeyHeader : Option String)
    (id : String) (s : DeleteState)
    (h : adminKeyEnv = none ∨ adminKeyEnv = some "") :
    (deleteArtwork parseURL true selErr delErr adminKeyEnv adminKeyHeader id s).1.status = 403 ∧
    (deleteArtwork parseURL true selErr delErr adminKeyEnv adminKeyHeader id s).2 = s := by
  have hdef : adminKeyEnv.getD "" = "" := by
    rcases h with h | h <;> simp [h]
  constructor <;> simp [deleteArtwork, hdef, DeleteResp.status]

/-- Witness for C9: unset admin key together with an empty-string header is
still rejected with 403 and the row survives. -/
theorem deleteArtwork_fails_closed_witness :
    (deleteArtwork (fun _ => none) true false false none (some "") "1"
      ⟨[⟨"1", none⟩], []⟩).1.status = 403 ∧
    (deleteArtwork (fun _ => none) true false false none (some "") "1"
      ⟨[⟨"1", none⟩], []⟩).2 = ⟨[⟨"1", none⟩], []⟩ :=
  deleteArtwork_fails_closed (fun _ => none) false false none (some "") "1"
    ⟨[⟨"1", none⟩], []⟩ (Or.inl rfl)

/-- C2: a DELETE request that passes the admin-key check, finds the stored
row, and whose `image_url` either fails to parse as a URL or has a pathname
that does not match the storage pattern, leaves the storage bucket untouched,
still deletes the database row, and responds 200 ok. -/
theorem deleteArtwork_skips_bad_storage_url (parseURL : String → Option URLParts)
    (key id : String) (s : DeleteState) (row : StoredArtwork)
    (hkey : key ≠ "")
    (hfind : s.artworks.find? (fun r => r.id == id) = some row)
    (hbad : parseURL (row.image_url.getD "") = none ∨
      ∃ u, parseURL (row.image_url.getD "") = some u ∧
        extractStoragePath u.pathname = none) :
    (deleteArtwork parseURL true false false (some key) (some key) id s).2.storage = s.storage ∧
    (deleteArtwork parseURL true false false (some key) (some key) id s).2.artworks =
      s.artworks.filter (fun r => !(r.id == id)) ∧
    (deleteArtwork parseURL true false false (some key) (some key) id s).1 = .ok ∧
    DeleteResp.status .ok = 200 := by
  rcases hbad with hb | ⟨u, hp, he⟩
  · refine ⟨?_, ?_, ?_, rfl⟩ <;> simp [deleteArtwork, hkey, hfind, hb]
  · refine ⟨?_, ?_, ?_, rfl⟩ <;> simp [deleteArtwork, hkey, hfind, hp, he]

/-- Witness for C2: a concrete artwork whose `image_url` is not a URL is
deleted from the table while the bucket keeps its object. -/
theorem deleteArtwork_skips_bad_storage_url_witness :
    (deleteArtwork (fun _ => none) true false false (some "k") (some "k") "1"
      ⟨[⟨"1", some "not-a-url"⟩], ["keep.png"]⟩).2.storage = ["keep.png"] ∧
    (deleteArtwork (fun _ => none) true false false (some "k") (some "k") "1"
      ⟨[⟨"1", some "not-a-url"⟩], ["keep.png"]⟩).2.artworks =
      List.filter (fun r => !(r.id == "1")) [(⟨"1", some "not-a-url"⟩ : StoredArtwork)] ∧
    (deleteArtwork (fun _ => none) true false false (some "k") (some "k") "1"
      ⟨[⟨"1", some "not-a-url"⟩], ["keep.png"]⟩).1 = .ok ∧
    DeleteResp.status .ok = 200 :=
  deleteArtwork_skips_bad_storage_url (fun _ => none) "k" "1"
    ⟨[⟨"1", some "not-a-url"⟩], ["keep.png"]⟩ ⟨"1", some "not-a-url"⟩
    (by decide) (by decide) (Or.inl rfl)

/-- C4 counterexample: a creation request with title present and price
present but equal to 0 — so both fields are present and the backend insert
would succeed — is answered 400 with no row inserted, refuting the claimed
200-with-inserted-row response. -/
theorem postArtworks_present_falsy_counterexample :
    (JSVal.num 0 ≠ JSVal.undef) ∧
    (postArtworks true false false ⟨.str "Sunset", .undef, .num 0, .undef⟩
      ⟨[], 0⟩).1.status = 400 ∧
    (postArtworks true false false ⟨.str "Sunset", .undef, .num 0, .undef⟩
      ⟨[], 0⟩).2 = ⟨[], 0⟩ ∧
    ¬ (postArtworks true false false ⟨.str "Sunset", .undef, .num 0, .undef⟩
      ⟨[], 0⟩).1.status = 200 := by
  decide

/-- C4 (amended): on a configured backend, a creation request whose title or
price is not truthy (in particular missing) is answered 400 with no row
inserted; when both are truthy and the insert succeeds, the response is 200
with the inserted row appended to the table. -/
theorem postArtworks_validation (netErr insertErr : Bool) (body : PostBody)
    (s : PostState) :
    ((body.title.truthy = false ∨ body.price.truthy = false) →
      postArtworks true netErr insertErr body s = (.badRequest, s) ∧
      PostResp.status .badRequest = 400) ∧
    (body.title.truthy = true → body.price.truthy = true →
      netErr = false → insertErr = false →
      postArtworks true netErr insertErr body s =
        (.ok ⟨s.nextId, body.title, body.description, body.price, body.image_url⟩,
         ⟨s.artworks ++ [⟨s.nextId, body.title, body.description, body.price, body.image_url⟩],
          s.nextId + 1⟩) ∧
      PostResp.status
        (.ok ⟨s.nextId, body.title, body.description, body.price, body.image_url⟩) = 200) := by
  constructor
  · intro h
    rcases h with h | h <;> exact ⟨by simp [postArtworks, h], rfl⟩
  · intro h1 h2 h3 h4
    subst h3; subst h4
    exact ⟨by simp [postArtworks, h1, h2], rfl⟩

/-- Witness for C4 (amended): a missing price gives a concrete 400, and a
truthy title and price give a concrete 200 with the row appended. -/
theorem postArtworks_validation_witness :
    (postArtworks true false false ⟨.str "Sunset", .undef, .undef, .undef⟩
      ⟨[], 0⟩ = (.badRequest, ⟨[], 0⟩) ∧
     PostResp.status .badRequest = 400) ∧
    (postArtworks true false false ⟨.str "Sunset", .undef, .num 120, .str "u"⟩
      ⟨[], 0⟩ =
      (.ok ⟨0, .str "Sunset", .undef, .num 120, .str "u"⟩,
       ⟨[⟨0, .str "Sunset", .undef, .num 120, .str "u"⟩], 1⟩) ∧
     PostResp.status (.ok ⟨0, .str "Sunset", .undef, .num 120, .str "u"⟩) = 200) :=
  ⟨(postArtworks_validation false false ⟨.str "Sunset", .undef, .undef, .undef⟩
      ⟨[], 0⟩).1 (Or.inr rfl),
   (postArtworks_validation false false ⟨.str "Sunset", .undef, .num 120, .str "u"⟩
      ⟨[], 0⟩).2 (by decide) (by decide) rfl rfl⟩

/-- C8: on a configured backend, a creation request whose body carries
price 0 or an empty-string title is rejected 400 with no row inserted: the
required-field check tests truthiness, not presence. -/
theorem postArtworks_falsy_rejected (netErr insertErr : Bool) (body : PostBody)
    (s : PostState)
    (h : body.price = JSVal.num 0 ∨ body.title = JSVal.str "") :
    postArtworks true netErr insertErr body s = (.badRequest, s) ∧
    PostResp.status .badRequest = 400 := by
  rcases h with h | h <;>
    exact ⟨by simp [postArtworks, h, JSVal.truthy], rfl⟩

/-- Witness for C8: price 0 with a perfectly good title is rejected 400 and
the table stays empty. -/
theorem postArtworks_falsy_rejected_witness :
    postArtworks true false false ⟨.str "Dawn", .null, .num 0, .null⟩ ⟨[], 7⟩ =
      (.badRequest, ⟨[], 7⟩) ∧
    PostResp.status .badRequest = 400 :=
  postArtworks_falsy_rejected false false ⟨.str "Dawn", .null, .num 0, .null⟩
    ⟨[], 7⟩ (Or.inl rfl)

/-- Decrementing after incrementing the same artwork restores every likes
counter. -/
theorem rpcDecrement_rpcIncrement (l : List GalleryArtwork) (aid : String) :
    rpcDecrementLikes (rpcIncrementLikes l aid) aid = l := by
  induction l with
  | nil => rfl
  | cons a t ih =>
      by_cases h : a.id = aid
      · simp [rpcIncrementLikes, rpcDecrementLikes, h] at ih ⊢
        exact ⟨by rw [← h], ih⟩
      · simp [rpcIncrementLikes, rpcDecrementLikes, h] at ih ⊢
        exact ih

/-- C5: for an authenticated user with no existing like on an artwork, two
consecutive like requests form a round trip: the first inserts the
(user, artwork) like row, runs the increment RPC and answers liked true; the
second deletes that row, runs the decrement RPC and answers liked false,
restoring the original like rows and likes counters. -/
theorem like_unlike_round_trip (getUser : String → Option String)
    (hs uid aid : String) (s : LikeState)
    (hbearer : bearerChars.isPrefixOf hs.data = true)
    (htok : getUser (String.mk (hs.data.drop 7)) = some uid)
    (hnone : s.artwork_likes.find? (fun r => r.user_id == uid && r.artwork_id == aid) = none)
    (hfresh : ∀ r ∈ s.artwork_likes, r.id ≠ s.nextLikeId) :
    (likeArtwork true getUser (some hs) aid s).1 = .liked true ∧
    (likeArtwork true getUser (some hs) aid s).2.artwork_likes =
      s.artwork_likes ++ [⟨s.nextLikeId, uid, aid⟩] ∧
    (likeArtwork true getUser (some hs) aid s).2.artworks =
      rpcIncrementLikes s.artworks aid ∧
    (likeArtwork true getUser (some hs) aid
      (likeArtwork true getUser (some hs) aid s).2).1 = .liked false ∧
    (likeArtwork true getUser (some hs) aid
      (likeArtwork true getUser (some hs) aid s).2).2.artwork_likes = s.artwork_likes ∧
    (likeArtwork true getUser (some hs) aid
      (likeArtwork true getUser (some hs) aid s).2).2.artworks = s.artworks := by
  have h1 : likeArtwork true getUser (some hs) aid s =
      (.liked true,
       ⟨s.artwork_likes ++ [⟨s.nextLikeId, uid, aid⟩],
        rpcIncrementLikes s.artworks aid, s.nextLikeId + 1⟩) := by
    simp [likeArtwork, hbearer, htok, hnone]
  have hfind2 : (s.artwork_likes ++ [(⟨s.nextLikeId, uid, aid⟩ : LikeRow)]).find?
      (fun r => r.user_id == uid && r.artwork_id == aid) =
      some ⟨s.nextLikeId, uid, aid⟩ := by
    simp [List.find?_append, hnone]
  have hfilter : (s.artwork_likes ++ [(⟨s.nextLikeId, uid, aid⟩ : LikeRow)]).filter
      (fun r => !(r.id == s.nextLikeId)) = s.artwork_likes := by
    rw [List.filter_append]
    have h2 : s.artwork_likes.filter (fun r => !(r.id == s.nextLikeId)) = s.artwork_likes :=
      List.filter_eq_self.mpr (fun r hr => by simp [hfresh r hr])
    simp [h2]
  have h3 : likeArtwork true getUser (some hs) aid
      (⟨s.artwork_likes ++ [⟨s.nextLikeId, uid, aid⟩],
        rpcIncrementLikes s.artworks aid, s.nextLikeId + 1⟩ : LikeState) =
      (.liked false, ⟨s.artwork_likes, s.artworks, s.nextLikeId + 1⟩) := by
    simp [likeArtwork, hbearer, htok, hfind2, hfilter, rpcDecrement_rpcIncrement]
  rw [h1]
  exact ⟨rfl, rfl, rfl, by rw [h3], by rw [h3], by rw [h3]⟩

/-- Witness for C5: a concrete user likes then unlikes one artwork and the
state returns to where it started, with the counter passing through 4. -/
theorem like_unlike_round_trip_witness :
    (likeArtwork true (fun t => if t == "tok" then some "u1" else none)
      (some "Bearer tok") "a1" ⟨[], [⟨"a1", 3⟩], 5⟩).1 = .liked true ∧
    (likeArtwork true (fun t => if t == "tok" then some "u1" else none)
      (some "Bearer tok") "a1" ⟨[], [⟨"a1", 3⟩], 5⟩).2.artwork_likes =
      [⟨5, "u1", "a1"⟩] ∧
    (likeArtwork true (fun t => if t == "tok" then some "u1" else none)
      (some "Bearer tok") "a1" ⟨[], [⟨"a1", 3⟩], 5⟩).2.artworks =
      rpcIncrementLikes [⟨"a1", 3⟩] "a1" ∧
    (likeArtwork true (fun t => if t == "tok" then some "u1" else none)
      (some "Bearer tok") "a1"
      (likeArtwork true (fun t => if t == "tok" then some "u1" else none)
        (some "Bearer tok") "a1" ⟨[], [⟨"a1", 3⟩], 5⟩).2).1 = .liked false ∧
    (likeArtwork true (fun t => if t == "tok" then some "u1" else none)
      (some "Bearer tok") "a1"
      (likeArtwork true (fun t => if t == "tok" then some "u1" else none)
        (some "Bearer tok") "a1" ⟨[], [⟨"a1", 3⟩], 5⟩).2).2.artwork_likes = [] ∧
    (likeArtwork true (fun t => if t == "tok" then some "u1" else none)
      (some "Bearer tok") "a1"
      (likeArtwork true (fun t => if t == "tok" then some "u1" else none)
        (some "Bearer tok") "a1" ⟨[], [⟨"a1", 3⟩], 5⟩).2).2.artworks =
      [⟨"a1", 3⟩] :=
  like_unlike_round_trip (fun t => if t == "tok" then some "u1" else none)
    "Bearer tok" "u1" "a1" ⟨[], [⟨"a1", 3⟩], 5⟩
    (by decide) (by decide) rfl (by simp)

end ArtGallery
